import Mathlib

/-!
Verification of the Seek job-scraper pipeline (seek_scraper_BS_v3/v4/v7.py).

Strings are modelled as `List Char`.  Python's `str.find`, slicing, `lower`,
`strip`, `split`, `replace` and the membership test `in` are embedded as
executable Lean functions.  Ages in days are rationals extended with the
IEEE infinity sentinel (`Days.inf`), mirroring Python's `float('inf')`.

The page/card loop of `scrape_jobs` is embedded as a function over an
explicit environment: fetching a results page yields a `Fetched` outcome
(`ok` with a parsed page, `noDoc` for a `None` return after retries, or
`raised` for an exception re-raised by the aiohttp strategy's final retry),
and each card carries the outcome of its detail extraction as supplied by
the environment (the detail page's DOM is external input).  The session
result records the scraped job list together with the trace of detail-page
URLs for which `extract_job_details` was attempted.
-/

/-- Python `str.lower()` restricted to the ASCII range used by the scraper. -/
def pyLower (s : List Char) : List Char :=
  s.map Char.toLower

/-- Python `str.strip()`: drop whitespace from both ends. -/
def pyStrip (s : List Char) : List Char :=
  ((s.dropWhile Char.isWhitespace).reverse.dropWhile Char.isWhitespace).reverse

/-- Worker for `removePosted`, structurally recursive on a fuel bound that
dominates the remaining length (each step consumes at least one character). -/
def removePostedAux : Nat → List Char → List Char
  | 0, s => s
  | _ + 1, [] => []
  | fuel + 1, c :: rest =>
    if (("posted").toList).isPrefixOf (c :: rest) then removePostedAux fuel (rest.drop 5)
    else c :: removePostedAux fuel rest

/-- Python `s.replace('posted', '')`: delete every non-overlapping
occurrence of `"posted"`, scanning left to right. -/
def removePosted (s : List Char) : List Char :=
  removePostedAux s.length s

/-- Python's substring membership test `sub in s`: some tail of `s` starts
with `sub`. -/
def isSubstring (sub s : List Char) : Bool :=
  (List.range (s.length + 1)).any (fun i => sub.isPrefixOf (s.drop i))

/-- Decimal digits to a natural number (the regex group `(\d+)`). -/
def digitsToNat (ds : List Char) : Nat :=
  ds.foldl (fun a c => 10 * a + (c.toNat - 48)) 0

/-- Python `re.match(r'(\d+)\s*([mhd])', s)`: a leading run of digits,
optional whitespace, then one of the unit codes `m`, `h`, `d`. -/
def reMatchTime (s : List Char) : Option (Nat × Char) :=
  let digits := s.takeWhile Char.isDigit
  if digits.isEmpty then none
  else
    match (s.dropWhile Char.isDigit).dropWhile Char.isWhitespace with
    | [] => none
    | u :: _ => if u = 'm' ∨ u = 'h' ∨ u = 'd' then some (digitsToNat digits, u) else none

/-- A posting age in days: a rational, or the `float('inf')` sentinel. -/
inductive Days where
  | fin (q : ℚ)
  | inf
deriving DecidableEq

/-- Python `<` on floats extended with infinity. -/
def daysLt : Days → Days → Bool
  | Days.fin a, Days.fin b => decide (a < b)
  | Days.fin _, Days.inf => true
  | Days.inf, _ => false

/-- Python `<=` on floats extended with infinity. -/
def daysLe : Days → Days → Bool
  | Days.fin a, Days.fin b => decide (a ≤ b)
  | Days.fin _, Days.inf => true
  | Days.inf, Days.fin _ => false
  | Days.inf, Days.inf => true

/-- The unit-conversion arm of `_convert_to_days` (v3 lines 233-244,
v4 lines 256-267, v7 lines 491-502): minutes are divided by `24 * 60`,
hours by `24`, and days are returned unchanged. -/
def unitToDays (value : ℚ) (unit : Char) : ℚ :=
  if unit = 'm' then value / (24 * 60)
  else if unit = 'h' then value / 24
  else value

/-- `SeekScraper._convert_to_days` (identical in v3/v4/v7): empty input or
input containing `"not found"` yields infinity; otherwise lower-case, delete
`"posted"`, strip, and match a leading integer plus unit code, yielding
infinity when the match fails. -/
def convert_to_days (posting_time : List Char) : Days :=
  if posting_time.isEmpty || isSubstring (("not found").toList) posting_time then Days.inf
  else
    let cleaned := pyStrip (removePosted (pyLower posting_time))
    match reMatchTime cleaned with
    | none => Days.inf
    | some (v, u) => Days.fin (unitToDays (v : ℚ) u)

/-- `SeekScraper._is_within_time_limit` of v3 (lines 250-268): a falsy limit
(Python `None` or the empty string) always passes; otherwise the comparison
is inclusive (`job_days <= limit_days`). -/
def is_within_time_limit_v3 (posting_time : List Char) (time_limit : Option (List Char)) : Bool :=
  match time_limit with
  | none => true
  | some tl =>
    if tl.isEmpty then true
    else daysLe (convert_to_days posting_time) (convert_to_days tl)

/-- `SeekScraper._is_within_time_limit` of v4 (lines 273-291): textually
identical to the v3 variant, inclusive boundary. -/
def is_within_time_limit_v4 (posting_time : List Char) (time_limit : Option (List Char)) : Bool :=
  match time_limit with
  | none => true
  | some tl =>
    if tl.isEmpty then true
    else daysLe (convert_to_days posting_time) (convert_to_days tl)

/-- `SeekScraper._is_within_time_limit` of v7 (lines 508-526): same shape
but the comparison is exclusive (`job_days < limit_days`). -/
def is_within_time_limit_v7 (posting_time : List Char) (time_limit : Option (List Char)) : Bool :=
  match time_limit with
  | none => true
  | some tl =>
    if tl.isEmpty then true
    else daysLt (convert_to_days posting_time) (convert_to_days tl)

/-- `SeekScraper.categorize_job_type` (v7 lines 398-430): lower-case the
title and test the fixed keyword chain in written order. -/
def categorize_job_type (job_title : List Char) : List Char :=
  let t := pyLower job_title
  if isSubstring (("data analyst").toList) t then ("Data Analyst").toList
  else if isSubstring (("data engineer").toList) t then ("Data Engineer").toList
  else if isSubstring (("engineer").toList) t then ("Data Engineer").toList
  else if isSubstring (("business analyst").toList) t then ("Business Analyst").toList
  else if isSubstring (("analytics analyst").toList) t then ("Analytcis Engineer").toList
  else if isSubstring (("data scientist").toList) t then ("Data Scientist").toList
  else if isSubstring (("report developer").toList) t then ("Report Developer").toList
  else if isSubstring (("solutions architect").toList) t then ("Solutions Architect").toList
  else ("unknown").toList

/-- The classifier's rule table, in the order written in the source. -/
def jobTypeRules : List (List Char × List Char) :=
  [((("data analyst").toList), (("Data Analyst").toList)),
   ((("data engineer").toList), (("Data Engineer").toList)),
   ((("engineer").toList), (("Data Engineer").toList)),
   ((("business analyst").toList), (("Business Analyst").toList)),
   ((("analytics analyst").toList), (("Analytcis Engineer").toList)),
   ((("data scientist").toList), (("Data Scientist").toList)),
   ((("report developer").toList), (("Report Developer").toList)),
   ((("solutions architect").toList), (("Solutions Architect").toList))]

/-- First-match lookup over an ordered rule table, defaulting to "unknown". -/
def firstMatchLabel (t : List Char) : List (List Char × List Char) → List Char
  | [] => ("unknown").toList
  | (kw, lab) :: rest => if isSubstring kw t then lab else firstMatchLabel t rest

/-- Helper for `pySplit`: accumulate the current word (reversed). -/
def pySplitAux : List Char → List Char → List (List Char)
  | [], acc => if acc.isEmpty then [] else [acc.reverse]
  | c :: rest, acc =>
    if c.isWhitespace then
      if acc.isEmpty then pySplitAux rest []
      else acc.reverse :: pySplitAux rest []
    else pySplitAux rest (c :: acc)

/-- Python `str.split()` with no argument: split on runs of whitespace,
producing no empty words. -/
def pySplit (s : List Char) : List (List Char) :=
  pySplitAux s []

/-- `SeekScraper.job_title_conditional_filter` (v4 lines 294-316): a falsy
filter always passes; otherwise every whitespace-separated word of the
lower-cased filter must be a substring of the lower-cased title. -/
def job_title_conditional_filter (job_title : List Char) (job_title_filter : Option (List Char)) :
    Bool :=
  match job_title_filter with
  | none => true
  | some f =>
    if f.isEmpty then true
    else
      let t := pyLower job_title
      (pySplit (pyLower f)).all (fun w => isSubstring w t)

/-- Python `s.find(sub, start)`: the least index `i ≥ start` at which `sub`
occurs in `s`, or `-1` when there is none. -/
def pyFind (s sub : List Char) (start : Nat) : Int :=
  match (List.range (s.length + 1)).find? (fun i => decide (start ≤ i) && sub.isPrefixOf (s.drop i)) with
  | some i => (i : Int)
  | none => -1

/-- `SeekScraper.extract_job_id` (v3 lines 62-82, v4 lines 61-81, v7 lines
149-169): `start_index = url.find('/job/') + 5`, `end_index = url.find('?',
start_index)`, then the slice `url[start_index:]` or
`url[start_index:end_index]`.  `str.find` returns `-1` rather than raising,
so the `except` branch returning "Job ID not found" is never taken. -/
def extract_job_id (url : List Char) : List Char :=
  let start_index : Int := pyFind url (("/job/").toList) 0 + 5
  let end_index : Int := pyFind url (("?").toList) start_index.toNat
  if end_index = -1 then url.drop start_index.toNat
  else (url.take end_index.toNat).drop start_index.toNat

/-- One scraped job record: the keys of the `job_details` dict built by
`extract_job_details` (v7 lines 314-394; v4 omits location and type and
never reads them, so the shared shape is harmless there). -/
structure JobDetails where
  url : List Char
  job_id : List Char
  job_title : List Char
  job_location : List Char
  company : List Char
  job_description : List Char
  posting_time : List Char
  job_type : List Char
deriving DecidableEq

/-- A job card on a results page, as the environment presents it:
the text of its `jobTitle` element (when present; read only by v4),
the detail URL `urljoin(base_url, href)` of its first anchor (when the
anchor and its `href` exist), and the outcome of `extract_job_details`
for that URL (`none` when all three attempts fail). -/
structure Card where
  cardTitle : Option (List Char)
  job_url : Option (List Char)
  detail : Option JobDetails
deriving DecidableEq

/-- A fetched results page: its job cards in document order, and whether a
`page-(n+1)` link with an `href` is present for `get_next_page_url`. -/
structure PageDoc where
  cards : List Card
  hasNext : Bool
deriving DecidableEq

/-- Outcome of `fetch_page` for one results page: a parsed document, a
`None` return after exhausting retries, or an exception re-raised by the
aiohttp strategy's final attempt (v7 lines 252-258). -/
inductive Fetched where
  | ok (doc : PageDoc)
  | noDoc
  | raised
deriving DecidableEq

/-- State leaving the per-page card loop: accumulated records, the
`jobs_scraped` counter, the trace of attempted detail URLs, and whether the
loop executed one of its `return all_jobs_data` statements. -/
structure CardsResult where
  acc : List JobDetails
  jobs_scraped : Nat
  trace : List (List Char)
  early : Bool
deriving DecidableEq

/-- Result of a whole `scrape_jobs` run: the returned records and the trace
of detail URLs for which `extract_job_details` was attempted. -/
structure SessionResult where
  jobs : List JobDetails
  trace : List (List Char)
deriving DecidableEq

/-- Python truthiness of an optional integer argument. -/
def pyIntTruthy : Option Int → Bool
  | none => false
  | some n => n != 0

/-- Python truthiness of an optional string argument. -/
def pyStrTruthy : Option (List Char) → Bool
  | none => false
  | some s => !s.isEmpty

/-- The guard `num_jobs and jobs_scraped >= num_jobs` (v7 line 564). -/
def numJobsStop (num_jobs : Option Int) (jobs_scraped : Nat) : Bool :=
  pyIntTruthy num_jobs && decide (num_jobs.getD 0 ≤ (jobs_scraped : Int))

/-- The guard `max_pages and current_page >= max_pages` (v7 line 605). -/
def maxPagesStop (max_pages : Option Int) (current_page : Nat) : Bool :=
  pyIntTruthy max_pages && decide (max_pages.getD 0 ≤ (current_page : Int))

/-- The per-card loop of `scrape_jobs` v7 (lines 563-602): stop the session
when `num_jobs` is reached; skip cards without a usable link; record the
detail-extraction attempt; skip cards whose detail extraction failed; stop
the session on a job outside the configured time limit; otherwise append
the record and bump the counter. -/
def processCards_v7 (num_jobs : Option Int) (posted_time_limit : Option (List Char)) :
    List Card → List JobDetails → Nat → List (List Char) → CardsResult
  | [], acc, scraped, trace => ⟨acc, scraped, trace, false⟩
  | card :: rest, acc, scraped, trace =>
    if numJobsStop num_jobs scraped then ⟨acc, scraped, trace, true⟩
    else
      match card.job_url with
      | none => processCards_v7 num_jobs posted_time_limit rest acc scraped trace
      | some job_url =>
        match card.detail with
        | none => processCards_v7 num_jobs posted_time_limit rest acc scraped (trace ++ [job_url])
        | some jd =>
          if pyStrTruthy posted_time_limit &&
              !(is_within_time_limit_v7 jd.posting_time posted_time_limit) then
            ⟨acc, scraped, trace ++ [job_url], true⟩
          else
            processCards_v7 num_jobs posted_time_limit rest (acc ++ [jd]) (scraped + 1)
              (trace ++ [job_url])

/-- The page loop of `scrape_jobs` v7 (lines 550-625): fetch the current
page (a re-raised fetch exception reaches the outer handler, which returns
the empty list; a `None` soup breaks out, returning the accumulated list);
run the card loop; honour its early session returns; stop on `max_pages` or
a missing next-page link; otherwise advance.  A world position past the
supplied list behaves like a `None` fetch. -/
def scrapeLoop_v7 (num_jobs max_pages : Option Int) (posted_time_limit : Option (List Char)) :
    List Fetched → Nat → List JobDetails → Nat → List (List Char) → SessionResult
  | [], _, acc, _, trace => ⟨acc, trace⟩
  | Fetched.raised :: _, _, _, _, trace => ⟨[], trace⟩
  | Fetched.noDoc :: _, _, acc, _, trace => ⟨acc, trace⟩
  | Fetched.ok doc :: restWorld, current_page, acc, scraped, trace =>
    let r := processCards_v7 num_jobs posted_time_limit doc.cards acc scraped trace
    if r.early then ⟨r.acc, r.trace⟩
    else if maxPagesStop max_pages current_page then ⟨r.acc, r.trace⟩
    else if !doc.hasNext then ⟨r.acc, r.trace⟩
    else
      scrapeLoop_v7 num_jobs max_pages posted_time_limit restWorld (current_page + 1) r.acc
        r.jobs_scraped r.trace

/-- `SeekScraper.scrape_jobs` v7 (lines 529-625) over an explicit fetch
environment. -/
def scrape_jobs_v7 (world : List Fetched) (num_jobs max_pages : Option Int)
    (posted_time_limit : Option (List Char)) : SessionResult :=
  scrapeLoop_v7 num_jobs max_pages posted_time_limit world 1 [] 0 []

/-- The per-card loop of `scrape_jobs` v4 (lines 354-403): as in v7 but a
card is first required to have a `jobTitle` element, its stripped text must
pass `job_title_conditional_filter` before the link is read and before any
detail fetch, and the time comparison is the inclusive v4 variant. -/
def processCards_v4 (num_jobs : Option Int) (posted_time_limit job_title_filter : Option (List Char)) :
    List Card → List JobDetails → Nat → List (List Char) → CardsResult
  | [], acc, scraped, trace => ⟨acc, scraped, trace, false⟩
  | card :: rest, acc, scraped, trace =>
    if numJobsStop num_jobs scraped then ⟨acc, scraped, trace, true⟩
    else
      match card.cardTitle with
      | none => processCards_v4 num_jobs posted_time_limit job_title_filter rest acc scraped trace
      | some rawTitle =>
        if !(job_title_conditional_filter (pyStrip rawTitle) job_title_filter) then
          processCards_v4 num_jobs posted_time_limit job_title_filter rest acc scraped trace
        else
          match card.job_url with
          | none => processCards_v4 num_jobs posted_time_limit job_title_filter rest acc scraped trace
          | some job_url =>
            match card.detail with
            | none =>
              processCards_v4 num_jobs posted_time_limit job_title_filter rest acc scraped
                (trace ++ [job_url])
            | some jd =>
              if pyStrTruthy posted_time_limit &&
                  !(is_within_time_limit_v4 jd.posting_time posted_time_limit) then
                ⟨acc, scraped, trace ++ [job_url], true⟩
              else
                processCards_v4 num_jobs posted_time_limit job_title_filter rest (acc ++ [jd])
                  (scraped + 1) (trace ++ [job_url])

/-- The page loop of `scrape_jobs` v4 (lines 341-423), same shape as v7. -/
def scrapeLoop_v4 (num_jobs max_pages : Option Int)
    (posted_time_limit job_title_filter : Option (List Char)) :
    List Fetched → Nat → List JobDetails → Nat → List (List Char) → SessionResult
  | [], _, acc, _, trace => ⟨acc, trace⟩
  | Fetched.raised :: _, _, _, _, trace => ⟨[], trace⟩
  | Fetched.noDoc :: _, _, acc, _, trace => ⟨acc, trace⟩
  | Fetched.ok doc :: restWorld, current_page, acc, scraped, trace =>
    let r := processCards_v4 num_jobs posted_time_limit job_title_filter doc.cards acc scraped trace
    if r.early then ⟨r.acc, r.trace⟩
    else if maxPagesStop max_pages current_page then ⟨r.acc, r.trace⟩
    else if !doc.hasNext then ⟨r.acc, r.trace⟩
    else
      scrapeLoop_v4 num_jobs max_pages posted_time_limit job_title_filter restWorld
        (current_page + 1) r.acc r.jobs_scraped r.trace

/-- `SeekScraper.scrape_jobs` v4 (lines 319-423) over an explicit fetch
environment. -/
def scrape_jobs_v4 (world : List Fetched) (num_jobs max_pages : Option Int)
    (posted_time_limit job_title_filter : Option (List Char)) : SessionResult :=
  scrapeLoop_v4 num_jobs max_pages posted_time_limit job_title_filter world 1 [] 0 []

/-- A sample job record whose textual fields are all `tag` and whose
posting time is `pt`. -/
def demoDetail (tag pt : List Char) : JobDetails :=
  ⟨tag, tag, tag, tag, tag, tag, pt, tag⟩

/-- A sample card with title `title`, detail URL `url`, posting time `pt`,
whose detail extraction succeeds. -/
def demoCard (title url pt : List Char) : Card :=
  ⟨some title, some url, some (demoDetail url pt)⟩

/-- Detail URL of the n-th card in the max-jobs scenario. -/
def uB (n : Nat) : List Char :=
  'u' :: [Char.ofNat (48 + n)]

/-- The n-th card of the max-jobs scenario. -/
def cardB (n : Nat) : Card :=
  demoCard (uB n) (uB n) (("Posted 1h ago").toList)

/-- Max-jobs scenario: one results page carrying five healthy cards. -/
def demoWorldB : List Fetched :=
  [Fetched.ok ⟨[cardB 1, cardB 2, cardB 3, cardB 4, cardB 5], false⟩]

/-- Detail URL of the n-th card in the time-limit scenario. -/
def uC (n : Nat) : List Char :=
  'c' :: [Char.ofNat (48 + n)]

/-- Time-limit scenario, page 1: two fresh jobs then one stale job. -/
def pageC1 : PageDoc :=
  ⟨[demoCard (uC 1) (uC 1) (("Posted 3h ago").toList),
    demoCard (uC 2) (uC 2) (("Posted 3h ago").toList),
    demoCard (uC 3) (uC 3) (("Posted 2d ago").toList)], true⟩

/-- Time-limit scenario, page 2: a further page that must never be used. -/
def pageC2 : PageDoc :=
  ⟨[demoCard (uC 4) (uC 4) (("Posted 3h ago").toList)], false⟩

/-- Time-limit scenario world: two fetchable pages. -/
def demoWorldC : List Fetched :=
  [Fetched.ok pageC1, Fetched.ok pageC2]

/-- A stale card used to witness the immediate-termination behavior. -/
def cardStale : Card :=
  demoCard (uC 3) (uC 3) (("Posted 2d ago").toList)

/-- Partial-results scenario, page 1: one healthy card and a next link. -/
def pageA : PageDoc :=
  ⟨[demoCard (("a1").toList) (("a1").toList) (("Posted 3h ago").toList)], true⟩

/-- Title-filter scenario page: one card failing and one passing the
filter "data analyst". -/
def pageD : PageDoc :=
  ⟨[demoCard (("Senior Data Engineer").toList) (("d1").toList) (("Posted 3h ago").toList),
    demoCard (("Data Analyst, Remote").toList) (("d2").toList) (("Posted 3h ago").toList)], false⟩

/-- Title-filter scenario world. -/
def demoWorldD : List Fetched :=
  [Fetched.ok pageD]

/-- A finite computed age forces a non-empty input string, since the empty
string is mapped to the infinity sentinel. -/
theorem convert_finite_ne_nil {tl : List Char} {q : ℚ} (h : convert_to_days tl = Days.fin q) :
    tl.isEmpty = false := by
  cases tl with
  | nil => simp [convert_to_days] at h
  | cons c cs => rfl

/-- On distinct extended ages the strict and the inclusive comparison agree. -/
theorem daysLt_eq_daysLe_of_ne {a b : Days} (h : a ≠ b) : daysLt a b = daysLe a b := by
  cases a with
  | inf =>
    cases b with
    | inf => exact absurd rfl h
    | fin q => rfl
  | fin qa =>
    cases b with
    | inf => rfl
    | fin qb =>
      have hq : qa ≠ qb := by
        intro he
        exact h (by rw [he])
      simp only [daysLt, daysLe, decide_eq_decide]
      exact ⟨le_of_lt, fun hle => lt_of_le_of_ne hle hq⟩

/-- Claim C1: `extract_job_id` does return the segment between `/job/` and
the first following `?`, but for a URL without `/job/` it returns the input
with its first four characters dropped (as `str.find` yields `-1`, making
`start_index = 4`) instead of the documented sentinel "Job ID not found":
the `except` branch that would produce the sentinel is unreachable. -/
theorem extract_job_id_missing_marker_bug :
    extract_job_id (("https://www.seek.com.au/job/81627900?type=standout").toList) =
        ("81627900").toList
    ∧ extract_job_id (("https://example.com/x").toList) = ("s://example.com/x").toList
    ∧ ("s://example.com/x").toList ≠ ("Job ID not found").toList := by
  refine ⟨by decide, by decide, by decide⟩

/-- Claim C2 (counterexample): under the same session history — one job
scraped from page 1 — a page-2 fetch that returns no document yields the
accumulated record, but a page-2 fetch that raises is caught by the outer
handler of `scrape_jobs`, which returns the empty list instead of the
accumulated record. -/
theorem fetch_raise_discards_partial_results :
    scrape_jobs_v7 [Fetched.ok pageA, Fetched.noDoc] none none none =
        ⟨[demoDetail (("a1").toList) (("Posted 3h ago").toList)], [("a1").toList]⟩
    ∧ scrape_jobs_v7 [Fetched.ok pageA, Fetched.raised] none none none =
        ⟨[], [("a1").toList]⟩
    ∧ ([] : List JobDetails) ≠ [demoDetail (("a1").toList) (("Posted 3h ago").toList)] := by
  refine ⟨by decide, by decide, by decide⟩

/-- Claim C2 (amended): at any session state, a results-page fetch that
ultimately returns no document terminates the session with exactly the
records accumulated so far, while a fetch that signals exhaustion by
raising reaches the outer exception handler, which discards the
accumulated records and returns the empty list. -/
theorem fetch_exhaustion_behavior :
    (∀ (rest : List Fetched) (page : Nat) (acc : List JobDetails) (scraped : Nat)
        (trace : List (List Char)) (nj mp : Option Int) (ptl : Option (List Char)),
        scrapeLoop_v7 nj mp ptl (Fetched.noDoc :: rest) page acc scraped trace = ⟨acc, trace⟩)
    ∧ (∀ (rest : List Fetched) (page : Nat) (acc : List JobDetails) (scraped : Nat)
        (trace : List (List Char)) (nj mp : Option Int) (ptl : Option (List Char)),
        scrapeLoop_v7 nj mp ptl (Fetched.raised :: rest) page acc scraped trace = ⟨[], trace⟩) :=
  ⟨fun _ _ _ _ _ _ _ _ => rfl, fun _ _ _ _ _ _ _ _ => rfl⟩

/-- Claim C3: whenever job and limit strings convert to the same finite age,
the v3 and v4 variants (inclusive `<=`) accept while the v7 variant
(exclusive `<`) rejects; whenever the two computed ages differ, all three
variants decide identically. -/
theorem boundary_disagreement_v3_v4_v7 :
    (∀ (pt tl : List Char) (q : ℚ),
        convert_to_days pt = Days.fin q → convert_to_days tl = Days.fin q →
        is_within_time_limit_v3 pt (some tl) = true ∧
        is_within_time_limit_v4 pt (some tl) = true ∧
        is_within_time_limit_v7 pt (some tl) = false)
    ∧ (∀ (pt tl : List Char),
        convert_to_days pt ≠ convert_to_days tl →
        is_within_time_limit_v3 pt (some tl) = is_within_time_limit_v7 pt (some tl) ∧
        is_within_time_limit_v4 pt (some tl) = is_within_time_limit_v7 pt (some tl)) := by
  constructor
  · intro pt tl q hpt htl
    have hne := convert_finite_ne_nil htl
    simp [is_within_time_limit_v3, is_within_time_limit_v4, is_within_time_limit_v7, hne,
      hpt, htl, daysLe, daysLt]
  · intro pt tl hne
    cases htl : tl.isEmpty with
    | true =>
      simp [is_within_time_limit_v3, is_within_time_limit_v4, is_within_time_limit_v7, htl]
    | false =>
      simp only [is_within_time_limit_v3, is_within_time_limit_v4, is_within_time_limit_v7,
        htl, Bool.false_eq_true, if_false]
      rw [daysLt_eq_daysLe_of_ne hne]
      exact ⟨rfl, rfl⟩

/-- Claim C3 (witness): "Posted 1d ago" and the limit "1d" both convert to
exactly one day; v3 keeps the job and v7 drops it. -/
theorem boundary_disagreement_witness :
    convert_to_days (("Posted 1d ago").toList) = Days.fin 1 ∧
    convert_to_days (("1d").toList) = Days.fin 1 ∧
    is_within_time_limit_v3 (("Posted 1d ago").toList) (some (("1d").toList)) = true ∧
    is_within_time_limit_v7 (("Posted 1d ago").toList) (some (("1d").toList)) = false := by
  have h := boundary_disagreement_v3_v4_v7.1 (("Posted 1d ago").toList) (("1d").toList) 1
    (by decide) (by decide)
  exact ⟨by decide, by decide, h.1, h.2.2⟩

/-- Claim C6: an empty posting time, one containing "not found", or one
whose cleaned form fails the leading integer-plus-unit match, converts to
the infinity sentinel; such a job fails every finite cutoff under the v7
check; and with no cutoff supplied the check accepts every job. -/
theorem unparseable_age_is_infinite :
    (∀ pt : List Char,
        pt = [] ∨ isSubstring (("not found").toList) pt = true ∨
          reMatchTime (pyStrip (removePosted (pyLower pt))) = none →
        convert_to_days pt = Days.inf)
    ∧ (∀ (pt tl : List Char) (q : ℚ),
        convert_to_days pt = Days.inf → convert_to_days tl = Days.fin q →
        is_within_time_limit_v7 pt (some tl) = false)
    ∧ (∀ pt : List Char, is_within_time_limit_v7 pt none = true) := by
  refine ⟨?_, ?_, fun pt => rfl⟩
  · intro pt h
    rcases h with h | h | h
    · subst h
      rfl
    · have h' : (pt.isEmpty || isSubstring (("not found").toList) pt) = true := by
        rw [h, Bool.or_true]
      unfold convert_to_days
      rw [if_pos h']
    · by_cases hc : (pt.isEmpty || isSubstring (("not found").toList) pt) = true
      · unfold convert_to_days
        rw [if_pos hc]
      · simp only [convert_to_days]
        rw [if_neg hc, h]
  · intro pt tl q hi hf
    have hne := convert_finite_ne_nil hf
    simp [is_within_time_limit_v7, hne, hi, hf, daysLt]

/-- Claim C6 (witness): "garbled" converts to infinity, fails the finite
cutoff "1d", and passes when no cutoff is supplied. -/
theorem unparseable_age_witness :
    convert_to_days (("garbled").toList) = Days.inf ∧
    is_within_time_limit_v7 (("garbled").toList) (some (("1d").toList)) = false ∧
    is_within_time_limit_v7 (("garbled").toList) none = true :=
  ⟨unparseable_age_is_infinite.1 (("garbled").toList) (Or.inr (Or.inr (by decide))),
   unparseable_age_is_infinite.2.1 (("garbled").toList) (("1d").toList) 1 (by decide) (by decide),
   unparseable_age_is_infinite.2.2 (("garbled").toList)⟩

/-- Claim C7: the classifier lower-cases the title and returns the label of
the first matching rule of the fixed ordered table, defaulting to
"unknown"; "Senior Data Engineer" gets the earlier matching rule's label,
and a title matching rules 1 and 3 gets rule 1's label. -/
theorem classifier_first_match :
    (∀ title : List Char,
        categorize_job_type title = firstMatchLabel (pyLower title) jobTypeRules)
    ∧ categorize_job_type (("Senior Data Engineer").toList) = ("Data Engineer").toList
    ∧ categorize_job_type (("Data Analyst Engineer").toList) = ("Data Analyst").toList
    ∧ categorize_job_type (("Chef de Mission").toList) = ("unknown").toList := by
  refine ⟨fun title => rfl, by decide, by decide, by decide⟩

/-- Claim C8: for a fixed unit code the day conversion is monotone in the
parsed magnitude (minutes over `24 * 60`, hours over `24`, days identity),
and the concrete chain 5m < 1h < 1d < 2d holds for the full conversion. -/
theorem age_conversion_monotone :
    (∀ (unit : Char) (v₁ v₂ : ℚ), v₁ ≤ v₂ → unitToDays v₁ unit ≤ unitToDays v₂ unit)
    ∧ daysLt (convert_to_days (("5m").toList)) (convert_to_days (("1h").toList)) = true
    ∧ daysLt (convert_to_days (("1h").toList)) (convert_to_days (("1d").toList)) = true
    ∧ daysLt (convert_to_days (("1d").toList)) (convert_to_days (("2d").toList)) = true := by
  have e5m : convert_to_days (("5m").toList) = Days.fin ((5 : ℚ) / (24 * 60)) := rfl
  have e1h : convert_to_days (("1h").toList) = Days.fin ((1 : ℚ) / 24) := rfl
  have e1d : convert_to_days (("1d").toList) = Days.fin ((1 : ℚ)) := rfl
  have e2d : convert_to_days (("2d").toList) = Days.fin ((2 : ℚ)) := rfl
  refine ⟨?_, ?_, ?_, ?_⟩
  · intro u v₁ v₂ h
    unfold unitToDays
    split_ifs
    · linarith
    · linarith
    · exact h
  · rw [e5m, e1h]
    simp only [daysLt, decide_eq_true_eq]
    norm_num
  · rw [e1h, e1d]
    simp only [daysLt, decide_eq_true_eq]
    norm_num
  · rw [e1d, e2d]
    simp only [daysLt, decide_eq_true_eq]
    norm_num

/-- Claim C8 (witness): the monotonicity at unit h with magnitudes 1 and 2. -/
theorem age_conversion_monotone_witness :
    (1 : ℚ) ≤ 2 ∧ unitToDays 1 'h' ≤ unitToDays 2 'h' :=
  ⟨by norm_num, age_conversion_monotone.1 'h' 1 2 (by norm_num)⟩

/-- Card-loop invariant for a positive `num_jobs`: the accumulated list has
exactly `jobs_scraped` entries and the counter never exceeds the limit. -/
theorem processCards_v7_counts (n : Int) (hn : 0 < n) (ptl : Option (List Char)) :
    ∀ (cards : List Card) (acc : List JobDetails) (scraped : Nat) (trace : List (List Char)),
      acc.length = scraped → (scraped : Int) ≤ n →
      (processCards_v7 (some n) ptl cards acc scraped trace).acc.length =
          (processCards_v7 (some n) ptl cards acc scraped trace).jobs_scraped
      ∧ ((processCards_v7 (some n) ptl cards acc scraped trace).jobs_scraped : Int) ≤ n := by
  intro cards
  induction cards with
  | nil =>
    intro acc scraped trace h1 h2
    exact ⟨h1, h2⟩
  | cons card rest ih =>
    intro acc scraped trace h1 h2
    by_cases hstop : numJobsStop (some n) scraped = true
    · simp only [processCards_v7]
      rw [if_pos hstop]
      exact ⟨h1, h2⟩
    · have hlt : (scraped : Int) < n := by
        by_contra hcon
        push_neg at hcon
        apply hstop
        simp only [numJobsStop, pyIntTruthy, Option.getD_some, Bool.and_eq_true, bne_iff_ne,
          ne_eq, decide_eq_true_eq]
        omega
      simp only [processCards_v7]
      rw [if_neg hstop]
      cases hu : card.job_url with
      | none => exact ih acc scraped trace h1 h2
      | some u =>
        cases hd : card.detail with
        | none => exact ih acc scraped (trace ++ [u]) h1 h2
        | some jd =>
          by_cases hl :
              (pyStrTruthy ptl && !(is_within_time_limit_v7 jd.posting_time ptl)) = true
          · simp only [hl]
            simp
            exact ⟨h1, h2⟩
          · simp only [hl]
            simp only [Bool.not_eq_true] at hl
            simp [hl]
            refine ih (acc ++ [jd]) (scraped + 1) (trace ++ [u]) ?_ ?_
            · simp [h1]
            · push_cast
              omega

/-- Page-loop bound for a positive `num_jobs`: the returned job list never
exceeds the limit. -/
theorem scrapeLoop_v7_le (n : Int) (hn : 0 < n) (mp : Option Int) (ptl : Option (List Char)) :
    ∀ (world : List Fetched) (page : Nat) (acc : List JobDetails) (scraped : Nat)
      (trace : List (List Char)),
      acc.length = scraped → (scraped : Int) ≤ n →
      ((scrapeLoop_v7 (some n) mp ptl world page acc scraped trace).jobs.length : Int) ≤ n := by
  intro world
  induction world with
  | nil =>
    intro page acc scraped trace h1 h2
    show ((acc.length : Int)) ≤ n
    rw [h1]
    exact h2
  | cons f rest ih =>
    intro page acc scraped trace h1 h2
    cases f with
    | raised =>
      show ((([] : List JobDetails).length : Int)) ≤ n
      simp
      omega
    | noDoc =>
      show ((acc.length : Int)) ≤ n
      rw [h1]
      exact h2
    | ok doc =>
      obtain ⟨hc1, hc2⟩ := processCards_v7_counts n hn ptl doc.cards acc scraped trace h1 h2
      simp only [scrapeLoop_v7]
      by_cases he : (processCards_v7 (some n) ptl doc.cards acc scraped trace).early = true
      · rw [if_pos he]
        show (((processCards_v7 (some n) ptl doc.cards acc scraped trace).acc.length : Int)) ≤ n
        rw [hc1]
        exact hc2
      · rw [if_neg he]
        by_cases hm : maxPagesStop mp page = true
        · rw [if_pos hm]
          show (((processCards_v7 (some n) ptl doc.cards acc scraped trace).acc.length : Int)) ≤ n
          rw [hc1]
          exact hc2
        · rw [if_neg hm]
          by_cases hnx : (!doc.hasNext) = true
          · rw [if_pos hnx]
            show (((processCards_v7 (some n) ptl doc.cards acc scraped trace).acc.length : Int)) ≤ n
            rw [hc1]
            exact hc2
          · rw [if_neg hnx]
            exact ih (page + 1) (processCards_v7 (some n) ptl doc.cards acc scraped trace).acc
              (processCards_v7 (some n) ptl doc.cards acc scraped trace).jobs_scraped
              (processCards_v7 (some n) ptl doc.cards acc scraped trace).trace hc1 hc2

/-- Claim C4: with a positive `num_jobs` the number of returned records
never exceeds it, and in the five-cards/limit-3 scenario the session
returns exactly three records and never attempts the detail pages of the
fourth and fifth card. -/
theorem max_jobs_cap :
    (∀ (world : List Fetched) (n : Int) (mp : Option Int) (ptl : Option (List Char)),
        0 < n → (((scrape_jobs_v7 world (some n) mp ptl).jobs.length : Int) ≤ n))
    ∧ scrape_jobs_v7 demoWorldB (some 3) none none =
        ⟨[demoDetail (uB 1) (("Posted 1h ago").toList),
          demoDetail (uB 2) (("Posted 1h ago").toList),
          demoDetail (uB 3) (("Posted 1h ago").toList)],
         [uB 1, uB 2, uB 3]⟩ := by
  refine ⟨?_, by decide⟩
  intro world n mp ptl hn
  exact scrapeLoop_v7_le n hn mp ptl world 1 [] 0 [] rfl (by omega)

/-- Claim C4 (witness): the general bound applied to the concrete
five-cards world with limit 3. -/
theorem max_jobs_cap_witness :
    (0 : Int) < 3 ∧ (((scrape_jobs_v7 demoWorldB (some 3) none none).jobs.length : Int) ≤ 3) :=
  ⟨by decide, max_jobs_cap.1 demoWorldB 3 none none (by decide)⟩

/-- Claim C5: when the recency limit is configured (truthy) and an
extracted job fails the v7 time check, the card loop stops the session at
that card — the stale record is not appended, the accumulator is returned
unchanged, only the stale card's own detail attempt is traced, and the
remaining cards are never reached; the page loop then returns immediately,
ignoring every remaining page of the world; the scenario with limit "1d"
and postings 3h/3h/2d returns exactly the first two jobs and never touches
the second page. -/
theorem stale_job_stops_session :
    (∀ (num_jobs : Option Int) (ptl : Option (List Char)) (card : Card) (rest : List Card)
        (acc : List JobDetails) (scraped : Nat) (trace : List (List Char)) (u : List Char)
        (jd : JobDetails),
        numJobsStop num_jobs scraped = false →
        card.job_url = some u → card.detail = some jd →
        pyStrTruthy ptl = true →
        is_within_time_limit_v7 jd.posting_time ptl = false →
        processCards_v7 num_jobs ptl (card :: rest) acc scraped trace =
          ⟨acc, scraped, trace ++ [u], true⟩)
    ∧ (∀ (num_jobs max_pages : Option Int) (ptl : Option (List Char)) (doc : PageDoc)
        (restWorld : List Fetched) (page : Nat) (acc acc' : List JobDetails)
        (scraped scraped' : Nat) (trace trace' : List (List Char)),
        processCards_v7 num_jobs ptl doc.cards acc scraped trace =
          ⟨acc', scraped', trace', true⟩ →
        scrapeLoop_v7 num_jobs max_pages ptl (Fetched.ok doc :: restWorld) page acc scraped
          trace = ⟨acc', trace'⟩)
    ∧ scrape_jobs_v7 demoWorldC none none (some (("1d").toList)) =
        ⟨[demoDetail (uC 1) (("Posted 3h ago").toList),
          demoDetail (uC 2) (("Posted 3h ago").toList)],
         [uC 1, uC 2, uC 3]⟩ := by
  refine ⟨?_, ?_, ?_⟩
  · intro nj ptl card rest acc scraped trace u jd hstop hu hd htr hlim
    have hstop' : ¬ numJobsStop nj scraped = true := by
      rw [hstop]
      exact Bool.false_ne_true
    simp only [processCards_v7]
    rw [if_neg hstop', hu, hd]
    simp [htr, hlim]
  · intro nj mp ptl doc restWorld page acc acc' scraped scraped' trace trace' h
    simp only [scrapeLoop_v7]
    rw [h]
    rfl
  · have e3h : convert_to_days (("Posted 3h ago").toList) = Days.fin ((3 : ℚ) / 24) := rfl
    have e2d : convert_to_days (("Posted 2d ago").toList) = Days.fin ((2 : ℚ)) := rfl
    have e1d : convert_to_days (("1d").toList) = Days.fin ((1 : ℚ)) := rfl
    have w3h : is_within_time_limit_v7 (("Posted 3h ago").toList) (some (("1d").toList)) =
        true := by
      show daysLt (convert_to_days (("Posted 3h ago").toList))
          (convert_to_days (("1d").toList)) = true
      rw [e3h, e1d]
      simp only [daysLt, decide_eq_true_eq]
      norm_num
    have w2d : is_within_time_limit_v7 (("Posted 2d ago").toList) (some (("1d").toList)) =
        false := by
      show daysLt (convert_to_days (("Posted 2d ago").toList))
          (convert_to_days (("1d").toList)) = false
      rw [e2d, e1d]
      decide
    have ht : pyStrTruthy (some (("1d").toList)) = true := by decide
    have hnj : ∀ s : Nat, numJobsStop none s = false := fun s => rfl
    have hmp : ∀ p : Nat, maxPagesStop none p = false := fun p => rfl
    simp at ht w3h w2d
    simp [scrape_jobs_v7, scrapeLoop_v7, processCards_v7, demoWorldC, pageC1, pageC2, demoCard,
      demoDetail, hnj, hmp, ht, w3h, w2d]

/-- Claim C5 (witness): the termination branch applied to the concrete
stale card under the limit "1d". -/
theorem stale_job_stops_session_witness :
    processCards_v7 none (some (("1d").toList)) [cardStale] [] 0 [] =
      ⟨[], 0, [uC 3], true⟩ :=
  stale_job_stops_session.1 none (some (("1d").toList)) cardStale [] [] 0 [] (uC 3)
    (demoDetail (uC 3) (("Posted 2d ago").toList)) (by decide) rfl rfl (by decide) (by
      show daysLt (convert_to_days (("Posted 2d ago").toList))
          (convert_to_days (("1d").toList)) = false
      decide)

/-- Claim C9: with a truthy filter, the v4 title filter accepts exactly
when every whitespace-separated word of the lower-cased filter is a
substring of the lower-cased title; a card whose stripped title fails the
filter is dropped from the card loop with no detail attempt recorded and
nothing accumulated; in the scenario with filter "data analyst" the card
"Senior Data Engineer" is skipped without a detail fetch and the card
"Data Analyst, Remote" is kept. -/
theorem title_filter_gate :
    (∀ (title f : List Char), f.isEmpty = false →
        (job_title_conditional_filter title (some f) = true ↔
          ∀ w ∈ pySplit (pyLower f), isSubstring w (pyLower title) = true))
    ∧ (∀ (num_jobs : Option Int) (ptl flt : Option (List Char)) (card : Card)
        (rest : List Card) (acc : List JobDetails) (scraped : Nat) (trace : List (List Char))
        (t : List Char),
        numJobsStop num_jobs scraped = false →
        card.cardTitle = some t →
        job_title_conditional_filter (pyStrip t) flt = false →
        processCards_v4 num_jobs ptl flt (card :: rest) acc scraped trace =
          processCards_v4 num_jobs ptl flt rest acc scraped trace)
    ∧ scrape_jobs_v4 demoWorldD none none none (some (("data analyst").toList)) =
        ⟨[demoDetail (("d2").toList) (("Posted 3h ago").toList)], [("d2").toList]⟩ := by
  refine ⟨?_, ?_, by decide⟩
  · intro title f hf
    simp only [job_title_conditional_filter, hf, Bool.false_eq_true, if_false,
      List.all_eq_true]
  · intro nj ptl flt card rest acc scraped trace t hstop ht hfail
    have hstop' : ¬ numJobsStop nj scraped = true := by
      rw [hstop]
      exact Bool.false_ne_true
    simp only [processCards_v4]
    rw [if_neg hstop', ht]
    simp [hfail]

/-- Claim C9 (witness): the skip branch applied to the concrete card titled
"Senior Data Engineer" under the filter "data analyst". -/
theorem title_filter_gate_witness :
    processCards_v4 none none (some (("data analyst").toList))
        [demoCard (("Senior Data Engineer").toList) (("d1").toList) (("Posted 3h ago").toList)]
        [] 0 [] =
      processCards_v4 none none (some (("data analyst").toList)) [] [] 0 [] :=
  title_filter_gate.2.1 none none (some (("data analyst").toList))
    (demoCard (("Senior Data Engineer").toList) (("d1").toList) (("Posted 3h ago").toList))
    [] [] 0 [] (("Senior Data Engineer").toList) (by decide) rfl (by decide)

/-- With `num_jobs = 0` the card loop is oblivious to the limit, exactly as
with no limit, because the guard tests the value's truthiness first. -/
theorem processCards_v7_numjobs_zero (ptl : Option (List Char)) :
    ∀ (cards : List Card) (acc : List JobDetails) (scraped : Nat) (trace : List (List Char)),
      processCards_v7 (some 0) ptl cards acc scraped trace =
        processCards_v7 none ptl cards acc scraped trace := by
  intro cards
  induction cards with
  | nil => intro acc scraped trace; rfl
  | cons card rest ih =>
    intro acc scraped trace
    have h0 : numJobsStop (some 0) scraped = false := rfl
    have h1 : numJobsStop none scraped = false := rfl
    simp only [processCards_v7, h0, h1, Bool.false_eq_true, if_false]
    cases hu : card.job_url with
    | none => exact ih acc scraped trace
    | some u =>
      cases hd : card.detail with
      | none => exact ih acc scraped (trace ++ [u])
      | some jd =>
        by_cases hl :
            (pyStrTruthy ptl && !(is_within_time_limit_v7 jd.posting_time ptl)) = true
        · simp [hl]
        · simp only [Bool.not_eq_true] at hl
          simp [hl]
          apply ih

/-- With `num_jobs = 0` the page loop behaves exactly as with no limit. -/
theorem scrapeLoop_v7_numjobs_zero (mp : Option Int) (ptl : Option (List Char)) :
    ∀ (world : List Fetched) (page : Nat) (acc : List JobDetails) (scraped : Nat)
      (trace : List (List Char)),
      scrapeLoop_v7 (some 0) mp ptl world page acc scraped trace =
        scrapeLoop_v7 none mp ptl world page acc scraped trace := by
  intro world
  induction world with
  | nil => intro page acc scraped trace; rfl
  | cons f rest ih =>
    intro page acc scraped trace
    cases f with
    | raised => rfl
    | noDoc => rfl
    | ok doc =>
      simp only [scrapeLoop_v7, processCards_v7_numjobs_zero, ih]

/-- With `max_pages = 0` the page loop behaves exactly as with no limit. -/
theorem scrapeLoop_v7_maxpages_zero (nj : Option Int) (ptl : Option (List Char)) :
    ∀ (world : List Fetched) (page : Nat) (acc : List JobDetails) (scraped : Nat)
      (trace : List (List Char)),
      scrapeLoop_v7 nj (some 0) ptl world page acc scraped trace =
        scrapeLoop_v7 nj none ptl world page acc scraped trace := by
  intro world
  induction world with
  | nil => intro page acc scraped trace; rfl
  | cons f rest ih =>
    intro page acc scraped trace
    cases f with
    | raised => rfl
    | noDoc => rfl
    | ok doc =>
      have h0 : maxPagesStop (some 0) page = false := rfl
      have h1 : maxPagesStop none page = false := rfl
      simp only [scrapeLoop_v7, h0, h1, ih]

/-- Claim C10: passing `num_jobs = 0` or `max_pages = 0` to `scrape_jobs`
yields exactly the run obtained with the corresponding limit absent,
because each limit guard tests truthiness before comparing. -/
theorem zero_limits_disable :
    (∀ (world : List Fetched) (mp : Option Int) (ptl : Option (List Char)),
        scrape_jobs_v7 world (some 0) mp ptl = scrape_jobs_v7 world none mp ptl)
    ∧ (∀ (world : List Fetched) (nj : Option Int) (ptl : Option (List Char)),
        scrape_jobs_v7 world nj (some 0) ptl = scrape_jobs_v7 world nj none ptl) :=
  ⟨fun world mp ptl => scrapeLoop_v7_numjobs_zero mp ptl world 1 [] 0 [],
   fun world nj ptl => scrapeLoop_v7_maxpages_zero nj ptl world 1 [] 0 []⟩
